import Mathlib

/-!
Verification of the exam-session and scoring engine of the JEE Genius
repository.  The data model follows the TypeScript declarations in the
types module; the session operations are translated from the handlers in
TestInterface.tsx; the scoring and verdict rules from ResultScreen.tsx;
the history-summary path and session start from App.tsx.

JavaScript records (objects used as maps keyed by question id) are
modelled as association lists of pairs.  Assignment to an existing key
replaces the value in place; assignment to a fresh key appends, matching
insertion-order semantics of JS objects.  Machine numbers that stay small
are modelled as Nat; the countdown and scores, which can be compared
against 0 and go negative, as Int.
-/

/-- Subjects, from the Subject enum of the types module. -/
inductive Subject
  | PHYSICS
  | CHEMISTRY
  | MATHS
deriving DecidableEq

/-- Question kinds, from the QuestionType enum of the types module. -/
inductive QuestionType
  | MCQ
  | NUMERICAL
deriving DecidableEq

/-- Per-question status values, from the QuestionStatus enum of the types module. -/
inductive QuestionStatus
  | NOT_VISITED
  | NOT_ANSWERED
  | ANSWERED
  | MARKED_FOR_REVIEW
  | ANSWERED_AND_MARKED
deriving DecidableEq

/-- Difficulty levels, from the Difficulty union type of the types module. -/
inductive Difficulty
  | Easy
  | Medium
  | Hard
  | Mixed
deriving DecidableEq

/-- A question record, from the Question interface of the types module. -/
structure Question where
  id : String
  text : String
  options : Option (List String)
  correctAnswer : String
  type : QuestionType
  subject : Subject
  chapter : String
  year : String
  explanation : String
  diagramSvg : Option String
deriving DecidableEq

/-- A response record, from the UserResponse interface of the types module.
selectedOption is null (here none) or a string. -/
structure UserResponse where
  questionId : String
  selectedOption : Option String
  status : QuestionStatus
  timeSpentSeconds : Nat
deriving DecidableEq

/-- A test configuration, from the TestConfig interface of the types module. -/
structure TestConfig where
  subjects : List Subject
  chapters : List String
  questionCount : Nat
  durationMinutes : Nat
  difficulty : Difficulty
deriving DecidableEq

/-- A history entry, from the TestHistoryItem interface of the types module. -/
structure TestHistoryItem where
  id : String
  date : String
  score : Int
  maxScore : Int
  accuracy : Nat
  topics : String
  config : TestConfig
deriving DecidableEq

/-- The response table of TestInterface: a JS record keyed by question id. -/
abbrev ResponseTable := List (String × UserResponse)

/-- Read a key from a JS record (first matching entry). -/
def recordGet (k : String) : ResponseTable → Option UserResponse
  | [] => none
  | (k1, v) :: rest => if k1 = k then some v else recordGet k rest

/-- Assignment initial[k] = v on a JS record: replaces the value of an
existing key in place, appends a fresh key at the end. -/
def recordSet (k : String) (v : UserResponse) : ResponseTable → ResponseTable
  | [] => [(k, v)]
  | (k1, v1) :: rest => if k1 = k then (k1, v) :: rest else (k1, v1) :: recordSet k v rest

/-- The update pattern of the handlers, spread of prev with prev[k]
replaced by f applied to it; when the key is absent the handlers guard
with an early return, so the table is unchanged. -/
def recordModify (k : String) (f : UserResponse → UserResponse) : ResponseTable → ResponseTable
  | [] => []
  | (k1, v) :: rest => if k1 = k then (k1, f v) :: rest else (k1, v) :: recordModify k f rest

/-- The session state owned by TestInterface: the fixed question list, the
current index, the countdown, whether the interval is still registered,
how many expiry signals have fired, and the response table. -/
structure SessionState where
  questions : List Question
  currentIndex : Nat
  timeLeft : Int
  timerActive : Bool
  expiredSignals : Nat
  responses : ResponseTable
deriving DecidableEq

/-- A fresh response entry as built by the responses initializer of
TestInterface (status NOT_VISITED, no selection, zero time). -/
def freshResponse (qid : String) : UserResponse :=
  { questionId := qid, selectedOption := none, status := QuestionStatus.NOT_VISITED,
    timeSpentSeconds := 0 }

/-- The loop questions.forEach of the responses initializer. -/
def buildResponses (qs : List Question) : ResponseTable :=
  qs.foldl (fun acc q => recordSet q.id (freshResponse q.id) acc) []

/-- The responses initializer of TestInterface: every question starts at
NOT_VISITED, then the entry of the question at position 0 is marked
NOT_ANSWERED when the list is non-empty. -/
def initResponses (qs : List Question) : ResponseTable :=
  match qs with
  | [] => buildResponses qs
  | q0 :: _ =>
      recordModify q0.id (fun r => { r with status := QuestionStatus.NOT_ANSWERED })
        (buildResponses qs)

/-- The initial session state: countdown durationMinutes * 60, interval
registered, current index 0, table from the responses initializer. -/
def initSession (qs : List Question) (durationMinutes : Nat) : SessionState :=
  { questions := qs, currentIndex := 0, timeLeft := (durationMinutes * 60 : Nat),
    timerActive := true, expiredSignals := 0, responses := initResponses qs }

/-- startTest of App: a session starts only when the generated question
list is non-empty, otherwise the error is thrown and no session exists. -/
def startTest (generatedQuestions : List Question) (durationMinutes : Nat) :
    Except String SessionState :=
  if generatedQuestions.length = 0 then
    Except.error "No questions were generated. Please try again."
  else
    Except.ok (initSession generatedQuestions durationMinutes)

/-- handleOptionSelect of TestInterface: stores the option and moves the
status of the current question to ANSWERED_AND_MARKED when it was
MARKED_FOR_REVIEW, ANSWERED otherwise. -/
def handleOptionSelect (option : String) (s : SessionState) : SessionState :=
  match s.questions[s.currentIndex]? with
  | none => s
  | some q =>
      { s with responses := recordModify q.id (fun r =>
          { r with selectedOption := some option,
                   status := if r.status = QuestionStatus.MARKED_FOR_REVIEW
                     then QuestionStatus.ANSWERED_AND_MARKED
                     else QuestionStatus.ANSWERED }) s.responses }

/-- handleNumericalInput of TestInterface: stores the typed text as the
selection (the empty string included); the status becomes ANSWERED or
ANSWERED_AND_MARKED for non-empty text, and NOT_ANSWERED for empty text. -/
def handleNumericalInput (val : String) (s : SessionState) : SessionState :=
  match s.questions[s.currentIndex]? with
  | none => s
  | some q =>
      { s with responses := recordModify q.id (fun r =>
          { r with selectedOption := some val,
                   status := if 0 < val.length
                     then (if r.status = QuestionStatus.MARKED_FOR_REVIEW
                        then QuestionStatus.ANSWERED_AND_MARKED
                        else QuestionStatus.ANSWERED)
                     else QuestionStatus.NOT_ANSWERED }) s.responses }

/-- Truthiness of the selectedOption field in JS: null and the empty
string are falsy. -/
def jsTruthy : Option String → Bool
  | none => false
  | some s => !(s = "")

/-- handleMarkForReview of TestInterface: base status from the presence of
a (truthy) selection, then the toggle overrides for the two marked states. -/
def handleMarkForReview (s : SessionState) : SessionState :=
  match s.questions[s.currentIndex]? with
  | none => s
  | some q =>
      match recordGet q.id s.responses with
      | none => s
      | some currentRes =>
          let base := if jsTruthy currentRes.selectedOption
            then QuestionStatus.ANSWERED_AND_MARKED
            else QuestionStatus.MARKED_FOR_REVIEW
          let newStatus :=
            if currentRes.status = QuestionStatus.MARKED_FOR_REVIEW
              then QuestionStatus.NOT_ANSWERED
            else if currentRes.status = QuestionStatus.ANSWERED_AND_MARKED
              then QuestionStatus.ANSWERED
            else base
          { s with responses := recordModify q.id (fun r =>
              { r with status := newStatus }) s.responses }

/-- handleClearResponse of TestInterface: drops the selection; a question
that was ANSWERED_AND_MARKED keeps its mark, everything else becomes
NOT_ANSWERED. -/
def handleClearResponse (s : SessionState) : SessionState :=
  match s.questions[s.currentIndex]? with
  | none => s
  | some q =>
      { s with responses := recordModify q.id (fun r =>
          { r with selectedOption := none,
                   status := if r.status = QuestionStatus.ANSWERED_AND_MARKED
                     then QuestionStatus.MARKED_FOR_REVIEW
                     else QuestionStatus.NOT_ANSWERED }) s.responses }

/-- navigateTo of TestInterface: no-op on an index without a question;
otherwise the target question is visited (NOT_VISITED becomes
NOT_ANSWERED) and the current index moves there. -/
def navigateTo (index : Nat) (s : SessionState) : SessionState :=
  match s.questions[index]? with
  | none => s
  | some nextQ =>
      { s with
          responses := recordModify nextQ.id (fun r =>
            { r with status := if r.status = QuestionStatus.NOT_VISITED
                then QuestionStatus.NOT_ANSWERED
                else r.status }) s.responses,
          currentIndex := index }

/-- One interval callback of the timer effect of TestInterface.  A cleared
interval never fires again.  A live callback decrements the countdown,
floored at 0; at the floor it clears the interval and fires the finish
signal exactly there; in every live callback one second is credited to the
question at the current position when its table entry exists. -/
def tick (s : SessionState) : SessionState :=
  if s.timerActive then
    let s1 :=
      if s.timeLeft ≤ 1 then
        { s with timeLeft := 0, timerActive := false,
                 expiredSignals := s.expiredSignals + 1 }
      else
        { s with timeLeft := s.timeLeft - 1 }
    match s1.questions[s1.currentIndex]? with
    | none => s1
    | some q =>
        { s1 with responses := recordModify q.id (fun r =>
            { r with timeSpentSeconds := r.timeSpentSeconds + 1 }) s1.responses }
  else s

/-- tickN s n iterates n interval callbacks. -/
def tickN (s : SessionState) : Nat → SessionState
  | 0 => s
  | n + 1 => tick (tickN s n)

/-- The discrete events that drive the session engine. -/
inductive Event
  | timerTick
  | navigate (index : Nat)
  | selectOption (value : String)
  | enterNumerical (text : String)
  | toggleMark
  | clearResponse
deriving DecidableEq

/-- Dispatch of one event to the matching handler. -/
def applyEvent (s : SessionState) : Event → SessionState
  | Event.timerTick => tick s
  | Event.navigate i => navigateTo i s
  | Event.selectOption v => handleOptionSelect v s
  | Event.enterNumerical t => handleNumericalInput t s
  | Event.toggleMark => handleMarkForReview s
  | Event.clearResponse => handleClearResponse s

/-- Apply a sequence of events in order. -/
def applyEvents (es : List Event) (s : SessionState) : SessionState :=
  es.foldl applyEvent s

/-- Number of timer ticks in an event sequence. -/
def countTicks : List Event → Nat
  | [] => 0
  | Event.timerTick :: es => countTicks es + 1
  | _ :: es => countTicks es

/-- Total seconds credited across the response table. -/
def timeSum (l : ResponseTable) : Nat :=
  (l.map (fun p => p.2.timeSpentSeconds)).sum

/-- String trim of JS, removing whitespace at both ends. -/
def jsTrim (s : String) : String :=
  String.mk (((s.toList.dropWhile Char.isWhitespace).reverse.dropWhile
    Char.isWhitespace).reverse)

/-- Exact-rational reading of the accuracy formula of the spec,
round(correct / attempted * 100) as floor of (100 c / a + 1 / 2).  The
program computes the quotient and product in binary64 instead (see
jsPct below); this definition follows the words of the spec and serves
only for comparison against the program. -/
def jsRound100 (c a : Nat) : Nat :=
  (200 * c + a) / (2 * a)

/-- Round num / den to the nearest integer, ties to even. -/
def rheDiv (num den : Nat) : Nat :=
  let n := num / den
  let r := num % den
  if 2 * r < den then n
  else if den < 2 * r then n + 1
  else if n % 2 = 0 then n else n + 1

/-- Floor of the base-2 logarithm, by structural recursion on a fuel
argument so that it evaluates inside the kernel; the fuel n always
suffices since the recursion halves n each step. -/
def natLog2Fuel : Nat → Nat → Nat
  | 0, _ => 0
  | fuel + 1, n => if 2 ≤ n then natLog2Fuel fuel (n / 2) + 1 else 0

/-- Floor of the base-2 logarithm of n (0 for n = 0). -/
def natLog2 (n : Nat) : Nat :=
  natLog2Fuel n n

/-- Floor of the base-2 logarithm of p / q for positive p and q. -/
def dyadicExponent (p q : Nat) : Int :=
  let a : Int := (natLog2 p : Int) - (natLog2 q : Int)
  if (if 0 ≤ a then q * 2 ^ a.toNat ≤ p else q ≤ p * 2 ^ (-a).toNat) then a else a - 1

/-- The binary64 quotient p / q for positive p and q, rounded to nearest
with ties to even, returned as a dyadic pair (m, E) of value m * 2 ^ E
with m in [2^52, 2^53].  Valid in the normal range of doubles, which
covers every count the response table can produce. -/
def divDouble (p q : Nat) : Nat × Int :=
  let e := dyadicExponent p q
  let m := if e ≤ 52 then rheDiv (p * 2 ^ (52 - e).toNat) q
           else rheDiv p (q * 2 ^ (e - 52).toNat)
  (m, e - 52)

/-- Math.round of the non-negative dyadic value m * 2 ^ E: the nearest
integer, ties toward the larger one. -/
def jsRoundDyadic (m : Nat) (E : Int) : Nat :=
  if 0 ≤ E then m * 2 ^ E.toNat
  else (m + 2 ^ ((-E).toNat - 1)) / 2 ^ (-E).toNat

/-- Math.round((c / a) * 100) exactly as the program computes it: the
quotient c / a is rounded to binary64, the product with 100 is rounded
to binary64 again, and Math.round acts on the exact value of that
double.  Both roundings are carried out on exact dyadic integers. -/
def jsPct (c a : Nat) : Nat :=
  if c = 0 then 0
  else
    let p := divDouble c a
    let n := p.1 * 100
    let s := natLog2 n - 52
    let m1 := rheDiv n (2 ^ s)
    jsRoundDyadic m1 (p.2 + s)

/-- The find over the responses prop of ResultScreen, first response whose
questionId matches the question. -/
def findResponse (rs : List UserResponse) (qid : String) : Option UserResponse :=
  match rs with
  | [] => none
  | r :: rest => if r.questionId = qid then some r else findResponse rest qid

/-- Per-question correctness check of ResultScreen: MCQ by exact string
equality of the option index, NUMERICAL by exact string equality after
trimming both sides. -/
def isCorrectAnswer (q : Question) (sel : String) : Bool :=
  if q.type = QuestionType.MCQ then sel = q.correctAnswer
  else jsTrim sel = jsTrim q.correctAnswer

/-- The per-question status local of the analysis loop of ResultScreen. -/
inductive AnalyzedStatus
  | correct
  | wrong
  | skipped
deriving DecidableEq

/-- Classification of one question by the analysis loop of ResultScreen:
a found response with a non-null selection is correct or wrong by the
correctness check, everything else is skipped (unattempted). -/
def analyzeStatus (rs : List UserResponse) (q : Question) : AnalyzedStatus :=
  match findResponse rs q.id with
  | some r =>
      match r.selectedOption with
      | some sel =>
          if isCorrectAnswer q sel then AnalyzedStatus.correct else AnalyzedStatus.wrong
      | none => AnalyzedStatus.skipped
  | none => AnalyzedStatus.skipped

/-- The accumulators of the analysis loop of ResultScreen. -/
structure ResultTally where
  correct : Nat
  incorrect : Nat
  unattempted : Nat
  score : Int
deriving DecidableEq

/-- One iteration of the analysis loop of ResultScreen: a correct answer
adds 1 to correct and 4 to score, a wrong one adds 1 to incorrect and
subtracts 1 from score, a skipped one adds 1 to unattempted. -/
def tallyQuestion (rs : List UserResponse) (q : Question) (t : ResultTally) : ResultTally :=
  match analyzeStatus rs q with
  | AnalyzedStatus.correct => { t with correct := t.correct + 1, score := t.score + 4 }
  | AnalyzedStatus.wrong => { t with incorrect := t.incorrect + 1, score := t.score - 1 }
  | AnalyzedStatus.skipped => { t with unattempted := t.unattempted + 1 }

/-- The analysis loop of ResultScreen over all questions, starting from
zeroed accumulators. -/
def resultTally (qs : List Question) (rs : List UserResponse) : ResultTally :=
  qs.foldl (fun t q => tallyQuestion rs q t) { correct := 0, incorrect := 0, unattempted := 0, score := 0 }

/-- attempted of ResultScreen: correct + incorrect. -/
def attemptedOf (qs : List Question) (rs : List UserResponse) : Nat :=
  (resultTally qs rs).correct + (resultTally qs rs).incorrect

/-- maxScore of ResultScreen: totalQuestions times 4. -/
def maxScoreOf (qs : List Question) : Int :=
  (qs.length : Int) * 4

/-- accuracy of ResultScreen: Math.round((correct / attempted) * 100) in
binary64, and 0 when nothing was attempted. -/
def accuracyOf (qs : List Question) (rs : List UserResponse) : Nat :=
  if 0 < attemptedOf qs rs then jsPct (resultTally qs rs).correct (attemptedOf qs rs)
  else 0

/-- A verdict record returned by getVerdict of ResultScreen. -/
structure Verdict where
  title : String
  msg : String
  color : String
deriving DecidableEq

/-- Verdict record for a perfect score, from getVerdict of ResultScreen. -/
def verdictPerfect : Verdict :=
  { title := "Godlike!", msg := "Perfect score. You are absolutely ready for JEE Advanced.", color := "text-amber-400" }

/-- Verdict record for high accuracy and high score. -/
def verdictExcellent : Verdict :=
  { title := "Excellent Performance", msg := "High accuracy and great conceptual clarity. Keep maintaining this pace.", color := "text-green-400" }

/-- Verdict record for high accuracy and low score. -/
def verdictCautious : Verdict :=
  { title := "Cautious Sniper", msg := "Great accuracy but low attempts. You need to increase your speed.", color := "text-cyan-400" }

/-- Verdict record for low accuracy with a high attempt rate. -/
def verdictGuesswork : Verdict :=
  { title := "Guesswork Hazard", msg := "Too many negative marks. Stop guessing and focus on accuracy.", color := "text-red-400" }

/-- Verdict record for a negative score. -/
def verdictCritical : Verdict :=
  { title := "Critical Condition", msg := "Concepts are weak. Revisit your basics immediately.", color := "text-red-600" }

/-- Default verdict record. -/
def verdictBalanced : Verdict :=
  { title := "Balanced Effort", msg := "Good start, but there is room for improvement in both speed and accuracy.", color := "text-blue-400" }

/-- getVerdict of ResultScreen: the ordered if chain over score,
accuracy, percentage, attempted and totalQuestions.  The attempt-rate
comparison attempted > totalQuestions * 0.8 is carried out on exact
rationals as 4 * totalQuestions < 5 * attempted. -/
def getVerdict (score maxScore : Int) (accuracy : Nat) (percentage : Int)
    (attempted totalQuestions : Nat) : Verdict :=
  if score = maxScore then verdictPerfect
  else if 85 < accuracy ∧ 70 < percentage then verdictExcellent
  else if 85 < accuracy ∧ percentage < 50 then verdictCautious
  else if accuracy < 60 ∧ 4 * totalQuestions < 5 * attempted then verdictGuesswork
  else if score < 0 then verdictCritical
  else verdictBalanced

/-- Per-question correctness check of handleTestFinish in App, the same
expression as in ResultScreen. -/
def isCorrectAnswerApp (q : Question) (sel : String) : Bool :=
  if q.type = QuestionType.MCQ then sel = q.correctAnswer
  else jsTrim sel = jsTrim q.correctAnswer

/-- The accumulators of the history-summary loop of handleTestFinish in
App: only correct and score are tracked. -/
structure AppTally where
  correct : Nat
  score : Int
deriving DecidableEq

/-- One iteration of the history-summary loop of handleTestFinish. -/
def appTallyStep (rs : List UserResponse) (q : Question) (t : AppTally) : AppTally :=
  match findResponse rs q.id with
  | some r =>
      match r.selectedOption with
      | some sel =>
          if isCorrectAnswerApp q sel then { correct := t.correct + 1, score := t.score + 4 }
          else { t with score := t.score - 1 }
      | none => t
  | none => t

/-- The history-summary loop of handleTestFinish over all questions. -/
def appTally (qs : List Question) (rs : List UserResponse) : AppTally :=
  qs.foldl (fun t q => appTallyStep rs q t) { correct := 0, score := 0 }

/-- The accuracy denominator of handleTestFinish: the number of responses
whose selectedOption is not null. -/
def appAttempted (rs : List UserResponse) : Nat :=
  (rs.filter (fun r => r.selectedOption.isSome)).length

/-- maxScore of handleTestFinish: questions.length times 4. -/
def appMaxScore (qs : List Question) : Int :=
  (qs.length : Int) * 4

/-- accuracy of handleTestFinish: Math.round((correct / attempted) * 100)
in binary64 over the count of responses with a selection, 0 when that
count is 0. -/
def appAccuracy (qs : List Question) (rs : List UserResponse) : Nat :=
  if 0 < appAttempted rs then jsPct (appTally qs rs).correct (appAttempted rs)
  else 0

/-- The history item built by handleTestFinish; id and date come from the
clock and are passed in here. -/
def mkHistoryItem (idStr dateStr : String) (cfg : TestConfig)
    (qs : List Question) (rs : List UserResponse) : TestHistoryItem :=
  { id := idStr, date := dateStr,
    score := (appTally qs rs).score,
    maxScore := appMaxScore qs,
    accuracy := appAccuracy qs rs,
    topics := if 0 < cfg.chapters.length
      then toString cfg.chapters.length ++ " Chapters"
      else "Full Syllabus",
    config := cfg }

/-- saveHistory of App: the new list is capped at its 50 most recent
entries. -/
def saveHistory (newHistory : List TestHistoryItem) : List TestHistoryItem :=
  newHistory.take 50

/-- handleTestFinish of App, restricted to its durable effect: the new
history item is prepended to the stored history and the result saved. -/
def handleTestFinish (idStr dateStr : String) (cfg : TestConfig)
    (qs : List Question) (rs : List UserResponse)
    (history : List TestHistoryItem) : List TestHistoryItem :=
  saveHistory (mkHistoryItem idStr dateStr cfg qs rs :: history)

/-! Helper lemmas about the record operations. -/

theorem recordModify_map_fst (k : String) (f : UserResponse → UserResponse) :
    ∀ l : ResponseTable, (recordModify k f l).map Prod.fst = l.map Prod.fst := by
  intro l
  induction l with
  | nil => rfl
  | cons p rest ih =>
      obtain ⟨k1, v⟩ := p
      by_cases h : k1 = k <;> simp [recordModify, h, ih]

theorem recordGet_recordModify_self (k : String) (f : UserResponse → UserResponse) :
    ∀ l : ResponseTable, recordGet k (recordModify k f l) = (recordGet k l).map f := by
  intro l
  induction l with
  | nil => rfl
  | cons p rest ih =>
      obtain ⟨k1, v⟩ := p
      by_cases h : k1 = k <;> simp [recordModify, recordGet, h, ih]

theorem recordGet_recordModify_ne (k k2 : String) (hne : k2 ≠ k)
    (f : UserResponse → UserResponse) :
    ∀ l : ResponseTable, recordGet k2 (recordModify k f l) = recordGet k2 l := by
  intro l
  induction l with
  | nil => rfl
  | cons p rest ih =>
      obtain ⟨k1, v⟩ := p
      by_cases h : k1 = k
      · subst h
        simp [recordModify, recordGet, Ne.symm hne]
      · by_cases h2 : k1 = k2 <;> simp [recordModify, recordGet, h, h2, hne, ih]

theorem timeSum_recordModify_const (k : String) (f : UserResponse → UserResponse)
    (hf : ∀ r, (f r).timeSpentSeconds = r.timeSpentSeconds) :
    ∀ l : ResponseTable, timeSum (recordModify k f l) = timeSum l := by
  intro l
  induction l with
  | nil => rfl
  | cons p rest ih =>
      obtain ⟨k1, v⟩ := p
      by_cases h : k1 = k
      · simp [recordModify, timeSum, h, hf]
      · simp [recordModify, timeSum, h]
        simpa [timeSum] using ih

theorem timeSum_recordModify_succ (k : String) (f : UserResponse → UserResponse)
    (hf : ∀ r, (f r).timeSpentSeconds = r.timeSpentSeconds + 1) :
    ∀ l : ResponseTable, k ∈ l.map Prod.fst →
      timeSum (recordModify k f l) = timeSum l + 1 := by
  intro l
  induction l with
  | nil => intro h; simp at h
  | cons p rest ih =>
      obtain ⟨k1, v⟩ := p
      intro hmem
      by_cases h : k1 = k
      · simp [recordModify, timeSum, h, hf]
        omega
      · have hk : k ∈ rest.map Prod.fst := by
          rcases (by simpa using hmem : k = k1 ∨ k ∈ rest.map Prod.fst) with hx | hx
          · exact absurd hx.symm h
          · exact hx
        simp [recordModify, timeSum, h]
        have := ih hk
        simp [timeSum] at this
        omega

theorem recordSet_of_not_mem (k : String) (v : UserResponse) :
    ∀ l : ResponseTable, k ∉ l.map Prod.fst → recordSet k v l = l ++ [(k, v)] := by
  intro l
  induction l with
  | nil => intro _; rfl
  | cons p rest ih =>
      obtain ⟨k1, v1⟩ := p
      intro hmem
      have h1 : k1 ≠ k := by
        intro h
        exact hmem (by simp [h])
      have h2 : k ∉ rest.map Prod.fst := by
        intro h
        exact hmem (by simp [h])
      simp [recordSet, h1, ih h2]

/-! Decomposition of the analysis loop of ResultScreen into per-question
counts, used to relate the score accumulator to the counters. -/

/-- Number of questions the analysis loop classifies as correct. -/
def countCorrect (qs : List Question) (rs : List UserResponse) : Nat :=
  match qs with
  | [] => 0
  | q :: rest =>
      (if analyzeStatus rs q = AnalyzedStatus.correct then 1 else 0) + countCorrect rest rs

/-- Number of questions the analysis loop classifies as wrong. -/
def countWrong (qs : List Question) (rs : List UserResponse) : Nat :=
  match qs with
  | [] => 0
  | q :: rest =>
      (if analyzeStatus rs q = AnalyzedStatus.wrong then 1 else 0) + countWrong rest rs

/-- Number of questions the analysis loop classifies as skipped. -/
def countSkipped (qs : List Question) (rs : List UserResponse) : Nat :=
  match qs with
  | [] => 0
  | q :: rest =>
      (if analyzeStatus rs q = AnalyzedStatus.skipped then 1 else 0) + countSkipped rest rs

theorem tally_fields (rs : List UserResponse) :
    ∀ (qs : List Question) (t : ResultTally),
      (qs.foldl (fun t q => tallyQuestion rs q t) t).correct = t.correct + countCorrect qs rs
      ∧ (qs.foldl (fun t q => tallyQuestion rs q t) t).incorrect = t.incorrect + countWrong qs rs
      ∧ (qs.foldl (fun t q => tallyQuestion rs q t) t).unattempted
          = t.unattempted + countSkipped qs rs
      ∧ (qs.foldl (fun t q => tallyQuestion rs q t) t).score
          = t.score + 4 * (countCorrect qs rs : Int) - (countWrong qs rs : Int) := by
  intro qs
  induction qs with
  | nil => intro t; simp [countCorrect, countWrong, countSkipped]
  | cons q rest ih =>
      intro t
      obtain ⟨ih1, ih2, ih3, ih4⟩ := ih (tallyQuestion rs q t)
      refine ⟨?_, ?_, ?_, ?_⟩
      · rw [List.foldl_cons, ih1]
        rcases hst : analyzeStatus rs q with _ | _ | _ <;>
          simp [tallyQuestion, hst, countCorrect] <;> omega
      · rw [List.foldl_cons, ih2]
        rcases hst : analyzeStatus rs q with _ | _ | _ <;>
          simp [tallyQuestion, hst, countWrong] <;> omega
      · rw [List.foldl_cons, ih3]
        rcases hst : analyzeStatus rs q with _ | _ | _ <;>
          simp [tallyQuestion, hst, countSkipped] <;> omega
      · rw [List.foldl_cons, ih4]
        rcases hst : analyzeStatus rs q with _ | _ | _ <;>
          simp [tallyQuestion, hst, countCorrect, countWrong] <;> push_cast <;> ring

theorem resultTally_correct_eq (qs : List Question) (rs : List UserResponse) :
    (resultTally qs rs).correct = countCorrect qs rs := by
  have h := tally_fields rs qs { correct := 0, incorrect := 0, unattempted := 0, score := 0 }
  simpa [resultTally] using h.1

theorem resultTally_incorrect_eq (qs : List Question) (rs : List UserResponse) :
    (resultTally qs rs).incorrect = countWrong qs rs := by
  have h := tally_fields rs qs { correct := 0, incorrect := 0, unattempted := 0, score := 0 }
  simpa [resultTally] using h.2.1

theorem resultTally_unattempted_eq (qs : List Question) (rs : List UserResponse) :
    (resultTally qs rs).unattempted = countSkipped qs rs := by
  have h := tally_fields rs qs { correct := 0, incorrect := 0, unattempted := 0, score := 0 }
  simpa [resultTally] using h.2.2.1

theorem resultTally_score_eq (qs : List Question) (rs : List UserResponse) :
    (resultTally qs rs).score
      = 4 * ((resultTally qs rs).correct : Int) - ((resultTally qs rs).incorrect : Int) := by
  have h := tally_fields rs qs { correct := 0, incorrect := 0, unattempted := 0, score := 0 }
  rw [resultTally_correct_eq, resultTally_incorrect_eq]
  simpa [resultTally] using h.2.2.2

/-! Concrete sample data used by the claim theorems. -/

/-- A question with the fields the engine inspects filled in. -/
def sampleQuestion (i ans : String) (ty : QuestionType) : Question :=
  { id := i, text := "text", options := none, correctAnswer := ans, type := ty,
    subject := Subject.PHYSICS, chapter := "chapter", year := "2024", explanation := "expl",
    diagramSvg := none }

/-- A response with the fields the engine inspects filled in. -/
def sampleResponse (i : String) (sel : Option String) (st : QuestionStatus) : UserResponse :=
  { questionId := i, selectedOption := sel, status := st, timeSpentSeconds := 0 }

/-- The 15-question set of the scoring example in the spec. -/
def exampleQuestions : List Question :=
  [sampleQuestion "e01" "1" QuestionType.NUMERICAL,
   sampleQuestion "e02" "1" QuestionType.NUMERICAL,
   sampleQuestion "e03" "1" QuestionType.NUMERICAL,
   sampleQuestion "e04" "1" QuestionType.NUMERICAL,
   sampleQuestion "e05" "1" QuestionType.NUMERICAL,
   sampleQuestion "e06" "1" QuestionType.NUMERICAL,
   sampleQuestion "e07" "1" QuestionType.NUMERICAL,
   sampleQuestion "e08" "1" QuestionType.NUMERICAL,
   sampleQuestion "e09" "1" QuestionType.NUMERICAL,
   sampleQuestion "e10" "1" QuestionType.NUMERICAL,
   sampleQuestion "e11" "1" QuestionType.NUMERICAL,
   sampleQuestion "e12" "1" QuestionType.NUMERICAL,
   sampleQuestion "e13" "1" QuestionType.NUMERICAL,
   sampleQuestion "e14" "1" QuestionType.NUMERICAL,
   sampleQuestion "e15" "1" QuestionType.NUMERICAL]

/-- Responses for the example set: 10 correct, 3 incorrect, 2 unattempted. -/
def exampleResponses : List UserResponse :=
  [sampleResponse "e01" (some "1") QuestionStatus.ANSWERED,
   sampleResponse "e02" (some "1") QuestionStatus.ANSWERED,
   sampleResponse "e03" (some "1") QuestionStatus.ANSWERED,
   sampleResponse "e04" (some "1") QuestionStatus.ANSWERED,
   sampleResponse "e05" (some "1") QuestionStatus.ANSWERED,
   sampleResponse "e06" (some "1") QuestionStatus.ANSWERED,
   sampleResponse "e07" (some "1") QuestionStatus.ANSWERED,
   sampleResponse "e08" (some "1") QuestionStatus.ANSWERED,
   sampleResponse "e09" (some "1") QuestionStatus.ANSWERED,
   sampleResponse "e10" (some "1") QuestionStatus.ANSWERED,
   sampleResponse "e11" (some "2") QuestionStatus.ANSWERED,
   sampleResponse "e12" (some "2") QuestionStatus.ANSWERED,
   sampleResponse "e13" (some "2") QuestionStatus.ANSWERED,
   sampleResponse "e14" none QuestionStatus.NOT_ANSWERED,
   sampleResponse "e15" none QuestionStatus.NOT_VISITED]

/-- The 40-question set reaching the binary64 tie case of the accuracy
formula at 23 correct of 40 attempted. -/
def tieQuestions : List Question :=
  (List.range 40).map (fun i => sampleQuestion (toString i) "1" QuestionType.NUMERICAL)

/-- Responses for the tie set: 23 correct, 17 incorrect, none skipped. -/
def tieResponses : List UserResponse :=
  (List.range 40).map (fun i =>
    sampleResponse (toString i) (some (if i < 23 then "1" else "2")) QuestionStatus.ANSWERED)

/-- C4 counterexample: at 23 correct of 40 attempted the program computes
the accuracy in binary64, where (23 / 40) * 100 evaluates below the tie
57.5, and reports 57; the exact-rational reading of the spec formula
round(correct / attempted * 100) gives 58, so the accuracy clause of the
claim is false of the program at this input. -/
theorem c4_counterexample :
    (resultTally tieQuestions tieResponses).correct = 23
    ∧ (resultTally tieQuestions tieResponses).incorrect = 17
    ∧ attemptedOf tieQuestions tieResponses = 40
    ∧ accuracyOf tieQuestions tieResponses = 57
    ∧ jsRound100 23 40 = 58
    ∧ ¬accuracyOf tieQuestions tieResponses = jsRound100 23 40 := by
  decide

/-- C4 amended: the Scoring Engine computes score = 4 * correct -
incorrect with unattempted questions contributing 0, maxScore =
totalQuestions * 4, and accuracy 0 when nothing was attempted; the
accuracy for attempted > 0 is Math.round((correct / attempted) * 100)
computed in binary64 (jsPct), which matches the exact-rational rounding
jsRound100 (characterized here by the two bracketing inequalities) except
at half-way ties the double quotient crosses, such as 23 of 40 where the
program reports 57 against the exact 58; on the 15-question example with
10 correct, 3 incorrect and 2 unattempted the engine yields score 37,
maxScore 60, attempted 13 and accuracy 77. -/
theorem c4_scoring_rules_amended (qs : List Question) (rs : List UserResponse) (c a : Nat) :
    (resultTally qs rs).score
        = 4 * ((resultTally qs rs).correct : Int) - ((resultTally qs rs).incorrect : Int)
    ∧ maxScoreOf qs = (qs.length : Int) * 4
    ∧ accuracyOf qs rs
        = (if 0 < attemptedOf qs rs
            then jsPct (resultTally qs rs).correct (attemptedOf qs rs) else 0)
    ∧ (a = 0 ∨ (2 * a * jsRound100 c a ≤ 200 * c + a
                ∧ 200 * c + a < 2 * a * jsRound100 c a + 2 * a))
    ∧ (resultTally exampleQuestions exampleResponses).correct = 10
    ∧ (resultTally exampleQuestions exampleResponses).incorrect = 3
    ∧ (resultTally exampleQuestions exampleResponses).unattempted = 2
    ∧ (resultTally exampleQuestions exampleResponses).score = 37
    ∧ attemptedOf exampleQuestions exampleResponses = 13
    ∧ maxScoreOf exampleQuestions = 60
    ∧ accuracyOf exampleQuestions exampleResponses = 77
    ∧ accuracyOf exampleQuestions [] = 0
    ∧ accuracyOf tieQuestions tieResponses = 57
    ∧ jsRound100 23 40 = 58 := by
  refine ⟨resultTally_score_eq qs rs, rfl, rfl, ?_, ?_⟩
  · by_cases ha : a = 0
    · exact Or.inl ha
    · refine Or.inr ?_
      have hpos : 0 < 2 * a := by omega
      have hdm := Nat.div_add_mod (200 * c + a) (2 * a)
      have hlt := Nat.mod_lt (200 * c + a) hpos
      unfold jsRound100
      omega
  · refine ⟨by decide, by decide, by decide, by decide, by decide, by decide, by decide,
      by decide, by decide, by decide⟩

/-- C7: a NUMERICAL question is judged correct exactly when the selected
text and the correct answer are equal after trimming surrounding
whitespace, with no numeric normalization; concretely, response "5.4 "
against correct answer "5.4" is correct while "5.40" against "5.4" is
wrong. -/
theorem c7_numerical_match (q : Question) (r : UserResponse)
    (ht : q.type = QuestionType.NUMERICAL) (hid : r.questionId = q.id) :
    (analyzeStatus [r] q = AnalyzedStatus.correct
      ↔ ∃ sel, r.selectedOption = some sel ∧ jsTrim sel = jsTrim q.correctAnswer)
    ∧ analyzeStatus [sampleResponse "n1" (some "5.4 ") QuestionStatus.ANSWERED]
        (sampleQuestion "n1" "5.4" QuestionType.NUMERICAL) = AnalyzedStatus.correct
    ∧ analyzeStatus [sampleResponse "n2" (some "5.40") QuestionStatus.ANSWERED]
        (sampleQuestion "n2" "5.4" QuestionType.NUMERICAL) = AnalyzedStatus.wrong := by
  refine ⟨?_, by decide, by decide⟩
  have hmcq : q.type ≠ QuestionType.MCQ := by simp [ht]
  rcases hsel : r.selectedOption with _ | sel
  · simp [analyzeStatus, findResponse, hid, hsel]
  · by_cases hc : jsTrim sel = jsTrim q.correctAnswer
    · simp [analyzeStatus, findResponse, hid, hsel, isCorrectAnswer, hmcq, hc]
    · simp [analyzeStatus, findResponse, hid, hsel, isCorrectAnswer, hmcq, hc]

/-- C7 witness: the characterization applied at a concrete NUMERICAL
question and response. -/
theorem c7_numerical_match_witness :
    (analyzeStatus [sampleResponse "n1" (some "5.4 ") QuestionStatus.ANSWERED]
        (sampleQuestion "n1" "5.4" QuestionType.NUMERICAL) = AnalyzedStatus.correct
      ↔ ∃ sel, (sampleResponse "n1" (some "5.4 ") QuestionStatus.ANSWERED).selectedOption
            = some sel
          ∧ jsTrim sel = jsTrim (sampleQuestion "n1" "5.4" QuestionType.NUMERICAL).correctAnswer)
    ∧ analyzeStatus [sampleResponse "n1" (some "5.4 ") QuestionStatus.ANSWERED]
        (sampleQuestion "n1" "5.4" QuestionType.NUMERICAL) = AnalyzedStatus.correct
    ∧ analyzeStatus [sampleResponse "n2" (some "5.40") QuestionStatus.ANSWERED]
        (sampleQuestion "n2" "5.4" QuestionType.NUMERICAL) = AnalyzedStatus.wrong :=
  c7_numerical_match (sampleQuestion "n1" "5.4" QuestionType.NUMERICAL)
    (sampleResponse "n1" (some "5.4 ") QuestionStatus.ANSWERED) (by decide) (by decide)

/-- C8: getVerdict evaluates its fixed band list top-to-bottom with the
first match winning, in exactly the order perfect, excellent, cautious,
guesswork, critical, balanced: the result is a given band exactly when
that band matches and every earlier band fails; an input matching both
the cautious and the critical band is classified cautious. -/
theorem c8_verdict_order (score maxScore percentage : Int)
    (accuracy attempted totalQuestions : Nat) :
    (getVerdict score maxScore accuracy percentage attempted totalQuestions = verdictPerfect
      ↔ score = maxScore)
    ∧ (getVerdict score maxScore accuracy percentage attempted totalQuestions = verdictExcellent
      ↔ (¬score = maxScore ∧ (85 < accuracy ∧ 70 < percentage)))
    ∧ (getVerdict score maxScore accuracy percentage attempted totalQuestions = verdictCautious
      ↔ (¬score = maxScore ∧ ¬(85 < accuracy ∧ 70 < percentage)
          ∧ (85 < accuracy ∧ percentage < 50)))
    ∧ (getVerdict score maxScore accuracy percentage attempted totalQuestions = verdictGuesswork
      ↔ (¬score = maxScore ∧ ¬(85 < accuracy ∧ 70 < percentage)
          ∧ ¬(85 < accuracy ∧ percentage < 50)
          ∧ (accuracy < 60 ∧ 4 * totalQuestions < 5 * attempted)))
    ∧ (getVerdict score maxScore accuracy percentage attempted totalQuestions = verdictCritical
      ↔ (¬score = maxScore ∧ ¬(85 < accuracy ∧ 70 < percentage)
          ∧ ¬(85 < accuracy ∧ percentage < 50)
          ∧ ¬(accuracy < 60 ∧ 4 * totalQuestions < 5 * attempted) ∧ score < 0))
    ∧ (getVerdict score maxScore accuracy percentage attempted totalQuestions = verdictBalanced
      ↔ (¬score = maxScore ∧ ¬(85 < accuracy ∧ 70 < percentage)
          ∧ ¬(85 < accuracy ∧ percentage < 50)
          ∧ ¬(accuracy < 60 ∧ 4 * totalQuestions < 5 * attempted) ∧ ¬score < 0))
    ∧ getVerdict (-5) 40 90 (-10) 1 10 = verdictCautious := by
  refine ⟨?_, ?_, ?_, ?_, ?_, ?_, by decide⟩ <;>
    · unfold getVerdict
      split_ifs <;>
        simp_all [verdictPerfect, verdictExcellent, verdictCautious, verdictGuesswork,
          verdictCritical, verdictBalanced]

/-- A session holding one NUMERICAL question whose response is currently
marked for review with the text 7 entered. -/
def sessionMarkedNumerical : SessionState :=
  { questions := [sampleQuestion "q1" "5" QuestionType.NUMERICAL], currentIndex := 0,
    timeLeft := 60, timerActive := true, expiredSignals := 0,
    responses := [("q1", sampleResponse "q1" (some "7") QuestionStatus.MARKED_FOR_REVIEW)] }

/-- C1 counterexample: on a previously marked NUMERICAL question, entering
empty text yields status NOT_ANSWERED (not MARKED_FOR_REVIEW) and keeps a
present empty-string selection (not an absent one), and the Scoring Engine
then counts the question as incorrect with score contribution -1 and not
as unattempted. -/
theorem c1_counterexample :
    (recordGet "q1" (handleNumericalInput "" sessionMarkedNumerical).responses).map
        UserResponse.status = some QuestionStatus.NOT_ANSWERED
    ∧ ¬(recordGet "q1" (handleNumericalInput "" sessionMarkedNumerical).responses).map
        UserResponse.status = some QuestionStatus.MARKED_FOR_REVIEW
    ∧ (recordGet "q1" (handleNumericalInput "" sessionMarkedNumerical).responses).map
        UserResponse.selectedOption = some (some "")
    ∧ (resultTally sessionMarkedNumerical.questions
        ((handleNumericalInput "" sessionMarkedNumerical).responses.map Prod.snd)).score = -1
    ∧ (resultTally sessionMarkedNumerical.questions
        ((handleNumericalInput "" sessionMarkedNumerical).responses.map Prod.snd)).incorrect = 1
    ∧ (resultTally sessionMarkedNumerical.questions
        ((handleNumericalInput "" sessionMarkedNumerical).responses.map Prod.snd)).unattempted
        = 0 := by
  decide

/-- C1 amended: entering empty numerical text stores the empty string as
the selection (still present, not absent) and sets the status to
NOT_ANSWERED regardless of any previous mark; consequently the Scoring
Engine counts such a question as attempted and incorrect, contributing
-1 to the score, whenever the trimmed correct answer is non-empty. -/
theorem c1_amended_empty_numerical (s : SessionState) (q : Question) (r : UserResponse)
    (q2 : Question) (r2 : UserResponse)
    (hq : s.questions[s.currentIndex]? = some q)
    (hr : recordGet q.id s.responses = some r)
    (h2t : q2.type = QuestionType.NUMERICAL)
    (h2id : r2.questionId = q2.id)
    (h2sel : r2.selectedOption = some "")
    (h2ans : ¬jsTrim q2.correctAnswer = "") :
    recordGet q.id (handleNumericalInput "" s).responses
      = some { r with selectedOption := some "", status := QuestionStatus.NOT_ANSWERED }
    ∧ analyzeStatus [r2] q2 = AnalyzedStatus.wrong
    ∧ (resultTally [q2] [r2]).score = -1
    ∧ (resultTally [q2] [r2]).incorrect = 1
    ∧ (resultTally [q2] [r2]).unattempted = 0 := by
  have hmcq : q2.type ≠ QuestionType.MCQ := by simp [h2t]
  have hcond : isCorrectAnswer q2 "" = false := by
    have htrim : jsTrim "" = "" := rfl
    simp [isCorrectAnswer, hmcq, htrim]
    intro h
    exact h2ans h.symm
  have hwrong : analyzeStatus [r2] q2 = AnalyzedStatus.wrong := by
    simp [analyzeStatus, findResponse, h2id, h2sel, hcond]
  refine ⟨?_, hwrong, ?_, ?_, ?_⟩
  · have hlen : ¬0 < String.length "" := by decide
    simp [handleNumericalInput, hq, recordGet_recordModify_self, hr, hlen]
  · simp [resultTally, tallyQuestion, hwrong]
  · simp [resultTally, tallyQuestion, hwrong]
  · simp [resultTally, tallyQuestion, hwrong]

/-- C1 witness: the amended statement at the concrete marked session. -/
theorem c1_amended_empty_numerical_witness :
    recordGet "q1" (handleNumericalInput "" sessionMarkedNumerical).responses
      = some (sampleResponse "q1" (some "") QuestionStatus.NOT_ANSWERED)
    ∧ analyzeStatus [sampleResponse "q1" (some "") QuestionStatus.NOT_ANSWERED]
        (sampleQuestion "q1" "5" QuestionType.NUMERICAL) = AnalyzedStatus.wrong
    ∧ (resultTally [sampleQuestion "q1" "5" QuestionType.NUMERICAL]
        [sampleResponse "q1" (some "") QuestionStatus.NOT_ANSWERED]).score = -1
    ∧ (resultTally [sampleQuestion "q1" "5" QuestionType.NUMERICAL]
        [sampleResponse "q1" (some "") QuestionStatus.NOT_ANSWERED]).incorrect = 1
    ∧ (resultTally [sampleQuestion "q1" "5" QuestionType.NUMERICAL]
        [sampleResponse "q1" (some "") QuestionStatus.NOT_ANSWERED]).unattempted = 0 := by
  have h := c1_amended_empty_numerical sessionMarkedNumerical
    (sampleQuestion "q1" "5" QuestionType.NUMERICAL)
    (sampleResponse "q1" (some "7") QuestionStatus.MARKED_FOR_REVIEW)
    (sampleQuestion "q1" "5" QuestionType.NUMERICAL)
    (sampleResponse "q1" (some "") QuestionStatus.NOT_ANSWERED)
    (by decide) (by decide) (by decide) (by decide) (by decide) (by decide)
  simpa [sampleResponse, sampleQuestion] using h

/-- A session holding one MCQ question whose response is currently
answered and marked. -/
def sessionAnsweredMarked : SessionState :=
  { questions := [sampleQuestion "q1" "0" QuestionType.MCQ], currentIndex := 0,
    timeLeft := 60, timerActive := true, expiredSignals := 0,
    responses := [("q1", sampleResponse "q1" (some "0") QuestionStatus.ANSWERED_AND_MARKED)] }

/-- C2 counterexample: a question in ANSWERED_AND_MARKED that receives a
new selection moves to ANSWERED, not ANSWERED_AND_MARKED — the mark is
dropped. -/
theorem c2_counterexample :
    (recordGet "q1" (handleOptionSelect "2" sessionAnsweredMarked).responses).map
        UserResponse.status = some QuestionStatus.ANSWERED
    ∧ ¬(recordGet "q1" (handleOptionSelect "2" sessionAnsweredMarked).responses).map
        UserResponse.status = some QuestionStatus.ANSWERED_AND_MARKED := by
  decide

/-- C2 amended: selectOption stores the value and sets the status to
ANSWERED_AND_MARKED only when the question was previously
MARKED_FOR_REVIEW, and to ANSWERED in every other case — including the
previously ANSWERED_AND_MARKED case, which therefore drops its mark;
responses of other questions are untouched. -/
theorem c2_amended_select_option (s : SessionState) (q : Question) (r : UserResponse)
    (v k : String)
    (hq : s.questions[s.currentIndex]? = some q)
    (hr : recordGet q.id s.responses = some r)
    (hk : k ≠ q.id) :
    recordGet q.id (handleOptionSelect v s).responses
      = some { r with
          selectedOption := some v,
          status := if r.status = QuestionStatus.MARKED_FOR_REVIEW
            then QuestionStatus.ANSWERED_AND_MARKED
            else QuestionStatus.ANSWERED }
    ∧ recordGet k (handleOptionSelect v s).responses = recordGet k s.responses := by
  constructor
  · simp [handleOptionSelect, hq, recordGet_recordModify_self, hr]
  · simp [handleOptionSelect, hq, recordGet_recordModify_ne q.id k hk]

/-- C2 witness: the amended statement at the concrete answered-and-marked
session. -/
theorem c2_amended_select_option_witness :
    recordGet "q1" (handleOptionSelect "2" sessionAnsweredMarked).responses
      = some (sampleResponse "q1" (some "2") QuestionStatus.ANSWERED)
    ∧ recordGet "zz" (handleOptionSelect "2" sessionAnsweredMarked).responses
      = recordGet "zz" sessionAnsweredMarked.responses := by
  have h := c2_amended_select_option sessionAnsweredMarked
    (sampleQuestion "q1" "0" QuestionType.MCQ)
    (sampleResponse "q1" (some "0") QuestionStatus.ANSWERED_AND_MARKED)
    "2" "zz" (by decide) (by decide) (by decide)
  simpa [sampleResponse, sampleQuestion] using h

/-- A minimal configuration record, used by the finish examples. -/
def sampleConfig : TestConfig :=
  { subjects := [], chapters := [], questionCount := 0, durationMinutes := 45,
    difficulty := Difficulty.Mixed }

/-- C3 counterexample: calling explicit finish twice on an initially empty
history leaves two history entries, not one — the second call appends a
second entry, so finish is not free of repeated side effects. -/
theorem c3_counterexample :
    (handleTestFinish "2" "day" sampleConfig [] []
        (handleTestFinish "1" "day" sampleConfig [] [] [])).length = 2
    ∧ (handleTestFinish "1" "day" sampleConfig [] [] []).length = 1
    ∧ ¬handleTestFinish "2" "day" sampleConfig [] []
          (handleTestFinish "1" "day" sampleConfig [] [] [])
        = handleTestFinish "1" "day" sampleConfig [] [] [] := by
  decide

/-- C3 amended: the response snapshot handed over by finish is the same
both times, so the Result Report derived from it is identical; but the
history is not idempotent: every finish call prepends a fresh entry, so
two calls leave the two entries on top (subject to the 50-entry cap) and
the stored length grows by two up to the cap. -/
theorem c3_finish_history (i1 d1 i2 d2 : String) (cfg : TestConfig)
    (qs : List Question) (rs : List UserResponse) (history : List TestHistoryItem) :
    (handleTestFinish i2 d2 cfg qs rs (handleTestFinish i1 d1 cfg qs rs history)).length
      = min (history.length + 2) 50
    ∧ (handleTestFinish i2 d2 cfg qs rs (handleTestFinish i1 d1 cfg qs rs history)).head?
      = some (mkHistoryItem i2 d2 cfg qs rs)
    ∧ (handleTestFinish i2 d2 cfg qs rs (handleTestFinish i1 d1 cfg qs rs history))[1]?
      = some (mkHistoryItem i1 d1 cfg qs rs) := by
  unfold handleTestFinish saveHistory
  refine ⟨?_, ?_, ?_⟩
  · simp [List.length_take]
    omega
  · rw [List.take_succ_cons]
    simp
  · rw [List.take_succ_cons]
    simp [List.getElem?_take, List.take_succ_cons]

/-! Shape of the freshly built response table. -/

theorem buildResponses_aux :
    ∀ (qs : List Question) (acc : ResponseTable),
      List.Nodup (qs.map Question.id) →
      (∀ q ∈ qs, q.id ∉ acc.map Prod.fst) →
      qs.foldl (fun acc q => recordSet q.id (freshResponse q.id) acc) acc
        = acc ++ qs.map (fun q => (q.id, freshResponse q.id)) := by
  intro qs
  induction qs with
  | nil => intro acc _ _; simp
  | cons q rest ih =>
      intro acc hnd hmem
      have hq : q.id ∉ acc.map Prod.fst := hmem q (by simp)
      have hnd2 : List.Nodup (rest.map Question.id) := (List.nodup_cons.mp hnd).2
      have hqrest : q.id ∉ rest.map Question.id := (List.nodup_cons.mp hnd).1
      have hmem2 : ∀ q2 ∈ rest, q2.id ∉ (acc ++ [(q.id, freshResponse q.id)]).map Prod.fst := by
        intro q2 h2
        simp only [List.map_append, List.mem_append]
        rintro (hin | hin)
        · exact hmem q2 (by simp [h2]) hin
        · have : q2.id = q.id := by simpa using hin
          exact hqrest (this ▸ List.mem_map_of_mem Question.id h2)
      rw [List.foldl_cons, recordSet_of_not_mem q.id (freshResponse q.id) acc hq,
        ih (acc ++ [(q.id, freshResponse q.id)]) hnd2 hmem2]
      simp

theorem buildResponses_eq (qs : List Question) (h : List.Nodup (qs.map Question.id)) :
    buildResponses qs = qs.map (fun q => (q.id, freshResponse q.id)) := by
  have := buildResponses_aux qs [] h (by simp)
  simpa [buildResponses] using this

/-- A visited entry: the fresh response with status NOT_ANSWERED. -/
def visitedResponse (qid : String) : UserResponse :=
  { questionId := qid, selectedOption := none, status := QuestionStatus.NOT_ANSWERED,
    timeSpentSeconds := 0 }

theorem initResponses_cons (q0 : Question) (rest : List Question)
    (h : List.Nodup ((q0 :: rest).map Question.id)) :
    initResponses (q0 :: rest)
      = (q0.id, visitedResponse q0.id) :: rest.map (fun q => (q.id, freshResponse q.id)) := by
  unfold initResponses
  rw [buildResponses_eq (q0 :: rest) h]
  simp [recordModify, freshResponse, visitedResponse]

/-- C9: startTest on an empty question list fails with the configuration
error and produces no session; on a non-empty list it produces the initial
session whose response table has the question at position 0 at
NOT_ANSWERED and every other question at NOT_VISITED, with no selection
and zero time. -/
theorem c9_initialization (qs : List Question) (d i : Nat)
    (h1 : qs ≠ []) (h2 : List.Nodup (qs.map Question.id)) (hi : i < qs.length) :
    startTest [] d = Except.error "No questions were generated. Please try again."
    ∧ startTest qs d = Except.ok (initSession qs d)
    ∧ (initResponses qs)[i]?
        = some (qs[i].id,
            { questionId := qs[i].id, selectedOption := none,
              status := if i = 0 then QuestionStatus.NOT_ANSWERED
                else QuestionStatus.NOT_VISITED,
              timeSpentSeconds := 0 }) := by
  refine ⟨rfl, ?_, ?_⟩
  · simp [startTest, List.length_eq_zero, h1]
  · match qs, h1 with
    | q0 :: rest, _ =>
        rw [initResponses_cons q0 rest h2]
        match i, hi with
        | 0, _ => simp [visitedResponse]
        | j + 1, hj =>
            have hj2 : j < rest.length := by simpa using hj
            simp [List.getElem?_map, List.getElem?_eq_getElem hj2, freshResponse]

/-- C9 witness: initialization of a concrete two-question session. -/
theorem c9_initialization_witness :
    startTest [] 45 = Except.error "No questions were generated. Please try again."
    ∧ startTest [sampleQuestion "a" "0" QuestionType.MCQ,
        sampleQuestion "b" "1" QuestionType.NUMERICAL] 45
      = Except.ok (initSession [sampleQuestion "a" "0" QuestionType.MCQ,
          sampleQuestion "b" "1" QuestionType.NUMERICAL] 45)
    ∧ (initResponses [sampleQuestion "a" "0" QuestionType.MCQ,
        sampleQuestion "b" "1" QuestionType.NUMERICAL])[1]?
        = some ((([sampleQuestion "a" "0" QuestionType.MCQ,
              sampleQuestion "b" "1" QuestionType.NUMERICAL])[1]).id,
            { questionId := (([sampleQuestion "a" "0" QuestionType.MCQ,
                  sampleQuestion "b" "1" QuestionType.NUMERICAL])[1]).id,
              selectedOption := none,
              status := if 1 = 0 then QuestionStatus.NOT_ANSWERED
                else QuestionStatus.NOT_VISITED,
              timeSpentSeconds := 0 }) :=
  c9_initialization
    [sampleQuestion "a" "0" QuestionType.MCQ, sampleQuestion "b" "1" QuestionType.NUMERICAL]
    45 1 (by decide) (by decide) (by decide)

/-! Timer behaviour. -/

theorem tick_inactive (s : SessionState) (h : s.timerActive = false) : tick s = s := by
  simp [tick, h]

theorem tick_timer_fields (s : SessionState) (h : s.timerActive = true) :
    (tick s).timeLeft = (if s.timeLeft ≤ 1 then 0 else s.timeLeft - 1)
    ∧ (tick s).timerActive = (if s.timeLeft ≤ 1 then false else true)
    ∧ (tick s).expiredSignals
        = (if s.timeLeft ≤ 1 then s.expiredSignals + 1 else s.expiredSignals) := by
  by_cases h2 : s.timeLeft ≤ 1
  · simp only [tick, h, if_true, h2]
    rcases hq : s.questions[s.currentIndex]? with _ | q <;> simp [hq, h2]
  · simp only [tick, h, if_true, h2]
    rcases hq : s.questions[s.currentIndex]? with _ | q <;> simp [hq, h2]

theorem timer_master (qs : List Question) (d : Nat) :
    ∀ N : Nat,
      (N < max (d * 60) 1 →
        (tickN (initSession qs d) N).timeLeft = (d * 60 : Int) - N
        ∧ (tickN (initSession qs d) N).timerActive = true
        ∧ (tickN (initSession qs d) N).expiredSignals = 0)
      ∧ (max (d * 60) 1 ≤ N →
        (tickN (initSession qs d) N).timeLeft = 0
        ∧ (tickN (initSession qs d) N).timerActive = false
        ∧ (tickN (initSession qs d) N).expiredSignals = 1) := by
  intro N
  induction N with
  | zero =>
      constructor
      · intro _
        refine ⟨by simp [tickN, initSession], rfl, rfl⟩
      · intro h
        exfalso
        omega
  | succ N ih =>
      obtain ⟨ih1, ih2⟩ := ih
      constructor
      · intro hlt
        have hN : N < max (d * 60) 1 := by omega
        obtain ⟨e1, e2, e3⟩ := ih1 hN
        have hbig : ¬(tickN (initSession qs d) N).timeLeft ≤ 1 := by
          rw [e1]
          have : N + 1 < d * 60 := by omega
          push_cast
          omega
        obtain ⟨f1, f2, f3⟩ := tick_timer_fields (tickN (initSession qs d) N) e2
        rw [if_neg hbig] at f1 f2 f3
        refine ⟨?_, ?_, ?_⟩
        · show (tick (tickN (initSession qs d) N)).timeLeft = (d * 60 : Int) - (N + 1)
          rw [f1, e1]
          push_cast
          ring
        · show (tick (tickN (initSession qs d) N)).timerActive = true
          exact f2
        · show (tick (tickN (initSession qs d) N)).expiredSignals = 0
          rw [f3, e3]
      · intro hge
        by_cases hcase : max (d * 60) 1 ≤ N
        · obtain ⟨e1, e2, e3⟩ := ih2 hcase
          have : tickN (initSession qs d) (N + 1) = tickN (initSession qs d) N := by
            show tick (tickN (initSession qs d) N) = tickN (initSession qs d) N
            exact tick_inactive _ e2
          rw [this]
          exact ⟨e1, e2, e3⟩
        · have hN : N < max (d * 60) 1 := by omega
          obtain ⟨e1, e2, e3⟩ := ih1 hN
          have hle : (tickN (initSession qs d) N).timeLeft ≤ 1 := by
            rw [e1]
            have : N + 1 = max (d * 60) 1 := by omega
            have hmax : max (d * 60) 1 = d * 60 ∨ max (d * 60) 1 = 1 := by omega
            push_cast
            omega
          obtain ⟨f1, f2, f3⟩ := tick_timer_fields (tickN (initSession qs d) N) e2
          rw [if_pos hle] at f1 f2 f3
          refine ⟨?_, ?_, ?_⟩
          · show (tick (tickN (initSession qs d) N)).timeLeft = 0
            exact f1
          · show (tick (tickN (initSession qs d) N)).timerActive = false
            exact f2
          · show (tick (tickN (initSession qs d) N)).expiredSignals = 1
            rw [f3, e3]

/-- C5: after N ticks with N below the total duration the remaining time
is exactly totalSeconds minus N; the remaining time never drops below 0;
at most one expired signal ever fires, exactly one has fired once the
session has run its full course, after which the interval is cleared and
a cleared interval never changes the state again. -/
theorem c5_timer (qs : List Question) (d N M K : Nat) (s : SessionState)
    (h1 : N < d * 60) (h2 : max (d * 60) 1 ≤ M) (h3 : s.timerActive = false) :
    (tickN (initSession qs d) N).timeLeft = (d * 60 : Int) - N
    ∧ 0 ≤ (tickN (initSession qs d) K).timeLeft
    ∧ (tickN (initSession qs d) K).expiredSignals ≤ 1
    ∧ (tickN (initSession qs d) M).expiredSignals = 1
    ∧ (tickN (initSession qs d) M).timerActive = false
    ∧ tick s = s := by
  have hm := timer_master qs d
  refine ⟨?_, ?_, ?_, ?_, ?_, tick_inactive s h3⟩
  · have hN : N < max (d * 60) 1 := by omega
    exact ((hm N).1 hN).1
  · by_cases hK : K < max (d * 60) 1
    · have e1 := ((hm K).1 hK).1
      rw [e1]
      push_cast
      omega
    · have e1 := ((hm K).2 (by omega)).1
      rw [e1]
  · by_cases hK : K < max (d * 60) 1
    · have e3 := ((hm K).1 hK).2.2
      omega
    · have e3 := ((hm K).2 (by omega)).2.2
      omega
  · exact ((hm M).2 h2).2.2
  · exact ((hm M).2 h2).2.1

/-- A finished session state with a cleared interval. -/
def sampleFinishedSession : SessionState :=
  { questions := [], currentIndex := 0, timeLeft := 0, timerActive := false,
    expiredSignals := 1, responses := [] }

/-- C5 witness: the timer statement at duration 1 minute, 7 and 3 ticks
below expiry and 60 ticks at expiry. -/
theorem c5_timer_witness :
    (tickN (initSession [] 1) 7).timeLeft = (1 * 60 : Int) - 7
    ∧ 0 ≤ (tickN (initSession [] 1) 3).timeLeft
    ∧ (tickN (initSession [] 1) 3).expiredSignals ≤ 1
    ∧ (tickN (initSession [] 1) 60).expiredSignals = 1
    ∧ (tickN (initSession [] 1) 60).timerActive = false
    ∧ tick sampleFinishedSession = sampleFinishedSession := by
  have h := c5_timer [] 1 7 60 3 sampleFinishedSession (by decide) (by decide) (by decide)
  simpa using h

/-! Time accounting across event sequences. -/

theorem countTicks_cons (e : Event) (es : List Event) :
    countTicks (e :: es) = countTicks es + (if e = Event.timerTick then 1 else 0) := by
  cases e <;> simp [countTicks]

theorem applyEvent_nonTick (e : Event) (he : e ≠ Event.timerTick) (s : SessionState) :
    (applyEvent s e).questions = s.questions
    ∧ (applyEvent s e).responses.map Prod.fst = s.responses.map Prod.fst
    ∧ (applyEvent s e).timerActive = s.timerActive
    ∧ (applyEvent s e).timeLeft = s.timeLeft
    ∧ timeSum (applyEvent s e).responses = timeSum s.responses
    ∧ (s.currentIndex < s.questions.length →
        (applyEvent s e).currentIndex < (applyEvent s e).questions.length) := by
  cases e with
  | timerTick => exact absurd rfl he
  | navigate i =>
      simp only [applyEvent]
      rcases hq : s.questions[i]? with _ | q
      · simp [navigateTo, hq]
      · have hlen : i < s.questions.length := by
          by_contra hcon
          rw [List.getElem?_eq_none (by omega)] at hq
          exact Option.noConfusion hq
        refine ⟨by simp [navigateTo, hq], by simp [navigateTo, hq, recordModify_map_fst],
          by simp [navigateTo, hq], by simp [navigateTo, hq], ?_, ?_⟩
        · simp only [navigateTo, hq]
          apply timeSum_recordModify_const
          intro r
          rfl
        · intro _
          simpa [navigateTo, hq] using hlen
  | selectOption v =>
      simp only [applyEvent]
      rcases hq : s.questions[s.currentIndex]? with _ | q
      · simp [handleOptionSelect, hq]
      · refine ⟨by simp [handleOptionSelect, hq],
          by simp [handleOptionSelect, hq, recordModify_map_fst],
          by simp [handleOptionSelect, hq], by simp [handleOptionSelect, hq], ?_, ?_⟩
        · simp only [handleOptionSelect, hq]
          apply timeSum_recordModify_const
          intro r
          rfl
        · intro h
          simpa [handleOptionSelect, hq] using h
  | enterNumerical t =>
      simp only [applyEvent]
      rcases hq : s.questions[s.currentIndex]? with _ | q
      · simp [handleNumericalInput, hq]
      · refine ⟨by simp [handleNumericalInput, hq],
          by simp [handleNumericalInput, hq, recordModify_map_fst],
          by simp [handleNumericalInput, hq], by simp [handleNumericalInput, hq], ?_, ?_⟩
        · simp only [handleNumericalInput, hq]
          apply timeSum_recordModify_const
          intro r
          rfl
        · intro h
          simpa [handleNumericalInput, hq] using h
  | toggleMark =>
      simp only [applyEvent]
      rcases hq : s.questions[s.currentIndex]? with _ | q
      · simp [handleMarkForReview, hq]
      · rcases hr : recordGet q.id s.responses with _ | res
        · simp [handleMarkForReview, hq, hr]
        · refine ⟨by simp [handleMarkForReview, hq, hr],
            by simp [handleMarkForReview, hq, hr, recordModify_map_fst],
            by simp [handleMarkForReview, hq, hr], by simp [handleMarkForReview, hq, hr],
            ?_, ?_⟩
          · simp only [handleMarkForReview, hq, hr]
            apply timeSum_recordModify_const
            intro r
            rfl
          · intro h
            simpa [handleMarkForReview, hq, hr] using h
  | clearResponse =>
      simp only [applyEvent]
      rcases hq : s.questions[s.currentIndex]? with _ | q
      · simp [handleClearResponse, hq]
      · refine ⟨by simp [handleClearResponse, hq],
          by simp [handleClearResponse, hq, recordModify_map_fst],
          by simp [handleClearResponse, hq], by simp [handleClearResponse, hq], ?_, ?_⟩
        · simp only [handleClearResponse, hq]
          apply timeSum_recordModify_const
          intro r
          rfl
        · intro h
          simpa [handleClearResponse, hq] using h

theorem tick_components (s : SessionState) (h : s.timerActive = true)
    (hidx : s.currentIndex < s.questions.length)
    (hkeys : s.responses.map Prod.fst = s.questions.map Question.id) :
    (tick s).questions = s.questions
    ∧ (tick s).currentIndex = s.currentIndex
    ∧ (tick s).responses.map Prod.fst = s.responses.map Prod.fst
    ∧ timeSum (tick s).responses = timeSum s.responses + 1 := by
  have hq : s.questions[s.currentIndex]? = some s.questions[s.currentIndex] :=
    List.getElem?_eq_getElem hidx
  have hmem : (s.questions[s.currentIndex]).id ∈ s.responses.map Prod.fst := by
    rw [hkeys]
    exact List.mem_map_of_mem Question.id (s.questions.getElem_mem hidx)
  have hsum := timeSum_recordModify_succ (s.questions[s.currentIndex]).id
    (fun r => { r with timeSpentSeconds := r.timeSpentSeconds + 1 }) (fun r => rfl)
    s.responses hmem
  by_cases h2 : s.timeLeft ≤ 1 <;>
    · simp only [tick, h, if_true, h2, if_pos, if_neg]
      refine ⟨by simp [hq], by simp [hq], by simp [hq, recordModify_map_fst], by simp [hq, hsum]⟩

theorem applyEvents_no_ticks :
    ∀ (es : List Event) (s : SessionState), countTicks es = 0 →
      timeSum (applyEvents es s).responses = timeSum s.responses := by
  intro es
  induction es with
  | nil => intro s _; rfl
  | cons e rest ih =>
      intro s hcnt
      have he : e ≠ Event.timerTick := by
        intro hcon
        rw [countTicks_cons, if_pos hcon] at hcnt
        omega
      have hrest : countTicks rest = 0 := by
        rw [countTicks_cons, if_neg he] at hcnt
        omega
      obtain ⟨_, _, _, _, p5, _⟩ := applyEvent_nonTick e he s
      show timeSum (applyEvents rest (applyEvent s e)).responses = timeSum s.responses
      rw [ih (applyEvent s e) hrest, p5]

theorem timeSum_events :
    ∀ (es : List Event) (s : SessionState),
      s.currentIndex < s.questions.length →
      s.responses.map Prod.fst = s.questions.map Question.id →
      s.timerActive = true →
      (countTicks es : Int) ≤ max s.timeLeft 1 →
      timeSum (applyEvents es s).responses = timeSum s.responses + countTicks es := by
  intro es
  induction es with
  | nil => intro s _ _ _ _; simp [applyEvents, countTicks]
  | cons e rest ih =>
      intro s hidx hkeys hact hcnt
      by_cases he : e = Event.timerTick
      · subst he
        obtain ⟨t1, t2, t3, t4⟩ := tick_components s hact hidx hkeys
        have hstep : applyEvents (Event.timerTick :: rest) s = applyEvents rest (tick s) := rfl
        have hcnt1 : countTicks (Event.timerTick :: rest) = countTicks rest + 1 := by
          simp [countTicks]
        by_cases hexp : s.timeLeft ≤ 1
        · have hrest0 : countTicks rest = 0 := by
            rw [hcnt1] at hcnt
            push_cast at hcnt
            omega
          rw [hstep, applyEvents_no_ticks rest (tick s) hrest0, t4, hcnt1, hrest0]
        · obtain ⟨f1, f2, f3⟩ := tick_timer_fields s hact
          rw [if_neg hexp] at f1 f2 f3
          have hidx2 : (tick s).currentIndex < (tick s).questions.length := by
            rw [t1, t2]
            exact hidx
          have hkeys2 : (tick s).responses.map Prod.fst = (tick s).questions.map Question.id := by
            rw [t1, t3, hkeys]
          have hcnt2 : (countTicks rest : Int) ≤ max (tick s).timeLeft 1 := by
            rw [f1]
            rw [hcnt1] at hcnt
            push_cast at hcnt
            push_cast
            omega
          rw [hstep, ih (tick s) hidx2 hkeys2 f2 hcnt2, t4, hcnt1]
          omega
      · obtain ⟨p1, p2, p3, p4, p5, p6⟩ := applyEvent_nonTick e he s
        have hstep : applyEvents (e :: rest) s = applyEvents rest (applyEvent s e) := rfl
        have hcnt1 : countTicks (e :: rest) = countTicks rest := by
          rw [countTicks_cons, if_neg he]
          omega
        have hkeys2 : (applyEvent s e).responses.map Prod.fst
            = (applyEvent s e).questions.map Question.id := by
          rw [p1, p2, hkeys]
        have hcnt2 : (countTicks rest : Int) ≤ max (applyEvent s e).timeLeft 1 := by
          rw [p4]
          rw [hcnt1] at hcnt
          exact hcnt
        rw [hstep, ih (applyEvent s e) (p6 hidx) hkeys2 (by rw [p3]; exact hact) hcnt2,
          p5, hcnt1]

theorem initSession_table (qs : List Question) (d : Nat)
    (h1 : qs ≠ []) (h2 : List.Nodup (qs.map Question.id)) :
    (initSession qs d).responses.map Prod.fst = qs.map Question.id
    ∧ timeSum (initSession qs d).responses = 0 := by
  match qs, h1 with
  | q0 :: rest, _ =>
      rw [show (initSession (q0 :: rest) d).responses = initResponses (q0 :: rest) from rfl,
        initResponses_cons q0 rest h2]
      constructor
      · simp
      · apply List.sum_eq_zero
        intro x hx
        rcases List.mem_map.mp hx with ⟨p, hp, hpx⟩
        rcases List.mem_cons.mp hp with hp0 | hp1
        · rw [← hpx, hp0]
          rfl
        · rcases List.mem_map.mp hp1 with ⟨q2, _, hq2⟩
          rw [← hpx, ← hq2]
          rfl

/-- C6: starting from a fresh session over a non-empty question list with
distinct ids, any event sequence whose tick count does not exceed the
number of ticks the timer can deliver leaves the sum of all per-question
timeSpentSeconds exactly equal to the number of ticks: every tick credits
one second to exactly one question and no other event changes the total. -/
theorem c6_time_accounting (qs : List Question) (d : Nat) (es : List Event)
    (h1 : qs ≠ []) (h2 : List.Nodup (qs.map Question.id))
    (h3 : countTicks es ≤ max (d * 60) 1) :
    timeSum (applyEvents es (initSession qs d)).responses = countTicks es := by
  obtain ⟨hkeys, hzero⟩ := initSession_table qs d h1 h2
  have hidx : (initSession qs d).currentIndex < (initSession qs d).questions.length := by
    show 0 < qs.length
    cases qs with
    | nil => exact absurd rfl h1
    | cons _ _ => simp
  have hcnt : (countTicks es : Int) ≤ max (initSession qs d).timeLeft 1 := by
    show (countTicks es : Int) ≤ max ((d * 60 : Nat) : Int) 1
    push_cast
    omega
  have h := timeSum_events es (initSession qs d) hidx hkeys rfl hcnt
  rw [h, hzero]
  omega

/-- C6 witness: a concrete two-question session with three ticks and
interleaved navigation and selection. -/
theorem c6_time_accounting_witness :
    timeSum (applyEvents
        [Event.timerTick, Event.navigate 1, Event.timerTick, Event.selectOption "0",
         Event.timerTick]
        (initSession [sampleQuestion "a" "0" QuestionType.MCQ,
          sampleQuestion "b" "1" QuestionType.NUMERICAL] 1)).responses
      = countTicks
        [Event.timerTick, Event.navigate 1, Event.timerTick, Event.selectOption "0",
         Event.timerTick] :=
  c6_time_accounting
    [sampleQuestion "a" "0" QuestionType.MCQ, sampleQuestion "b" "1" QuestionType.NUMERICAL]
    1
    [Event.timerTick, Event.navigate 1, Event.timerTick, Event.selectOption "0",
     Event.timerTick]
    (by decide) (by decide) (by decide)

/-! Equivalence of the two scoring implementations. -/

theorem isCorrectAnswerApp_eq (q : Question) (sel : String) :
    isCorrectAnswerApp q sel = isCorrectAnswer q sel := rfl

theorem app_tally_aux (rs : List UserResponse) :
    ∀ (qs : List Question) (u : AppTally) (t : ResultTally),
      u.correct = t.correct → u.score = t.score →
      (qs.foldl (fun u q => appTallyStep rs q u) u).correct
        = (qs.foldl (fun t q => tallyQuestion rs q t) t).correct
      ∧ (qs.foldl (fun u q => appTallyStep rs q u) u).score
        = (qs.foldl (fun t q => tallyQuestion rs q t) t).score := by
  intro qs
  induction qs with
  | nil => intro u t h1 h2; exact ⟨h1, h2⟩
  | cons q rest ih =>
      intro u t h1 h2
      simp only [List.foldl_cons]
      apply ih
      · rcases hf : findResponse rs q.id with _ | r
        · simp [appTallyStep, tallyQuestion, analyzeStatus, hf, h1]
        · rcases hsel : r.selectedOption with _ | sel
          · simp [appTallyStep, tallyQuestion, analyzeStatus, hf, hsel, h1]
          · by_cases hc : isCorrectAnswer q sel = true
            · simp [appTallyStep, tallyQuestion, analyzeStatus, hf, hsel, hc,
                isCorrectAnswerApp_eq, h1]
            · simp [appTallyStep, tallyQuestion, analyzeStatus, hf, hsel, hc,
                isCorrectAnswerApp_eq, h1]
      · rcases hf : findResponse rs q.id with _ | r
        · simp [appTallyStep, tallyQuestion, analyzeStatus, hf, h2]
        · rcases hsel : r.selectedOption with _ | sel
          · simp [appTallyStep, tallyQuestion, analyzeStatus, hf, hsel, h2]
          · by_cases hc : isCorrectAnswer q sel = true
            · simp [appTallyStep, tallyQuestion, analyzeStatus, hf, hsel, hc,
                isCorrectAnswerApp_eq, h2]
            · simp [appTallyStep, tallyQuestion, analyzeStatus, hf, hsel, hc,
                isCorrectAnswerApp_eq, h2]

theorem appTally_eq_resultTally (qs : List Question) (rs : List UserResponse) :
    (appTally qs rs).correct = (resultTally qs rs).correct
    ∧ (appTally qs rs).score = (resultTally qs rs).score :=
  app_tally_aux rs qs { correct := 0, score := 0 }
    { correct := 0, incorrect := 0, unattempted := 0, score := 0 } rfl rfl

theorem counts_cons_skip (r : UserResponse) (rs2 : List UserResponse) :
    ∀ qs2 : List Question, (∀ q2 ∈ qs2, ¬r.questionId = q2.id) →
      countCorrect qs2 (r :: rs2) = countCorrect qs2 rs2
      ∧ countWrong qs2 (r :: rs2) = countWrong qs2 rs2 := by
  intro qs2
  induction qs2 with
  | nil => intro _; exact ⟨rfl, rfl⟩
  | cons q rest ih =>
      intro hno
      have hq : ¬r.questionId = q.id := hno q (by simp)
      have hst : analyzeStatus (r :: rs2) q = analyzeStatus rs2 q := by
        simp [analyzeStatus, findResponse, hq]
      obtain ⟨ih1, ih2⟩ := ih (fun q2 h2 => hno q2 (by simp [h2]))
      constructor
      · simp [countCorrect, hst, ih1]
      · simp [countWrong, hst, ih2]

theorem counts_attempted :
    ∀ (qs : List Question) (rs : List UserResponse),
      List.Forall₂ (fun r q => r.questionId = q.id) rs qs →
      List.Nodup (qs.map Question.id) →
      countCorrect qs rs + countWrong qs rs = appAttempted rs := by
  intro qs rs hm
  induction hm with
  | nil => intro _; rfl
  | @cons r q rs2 qs2 hrq htail ih =>
      intro hnd
      have hnd0 : q.id ∉ qs2.map Question.id := (List.nodup_cons.mp hnd).1
      have hnd2 : List.Nodup (qs2.map Question.id) := (List.nodup_cons.mp hnd).2
      have hno : ∀ q2 ∈ qs2, ¬r.questionId = q2.id := by
        intro q2 h2 hcon
        rw [hrq] at hcon
        exact hnd0 (hcon ▸ List.mem_map_of_mem Question.id h2)
      obtain ⟨s1, s2⟩ := counts_cons_skip r rs2 qs2 hno
      have hfind : findResponse (r :: rs2) q.id = some r := by
        simp [findResponse, hrq]
      have hih := ih hnd2
      rcases hsel : r.selectedOption with _ | sel
      · have hst : analyzeStatus (r :: rs2) q = AnalyzedStatus.skipped := by
          simp [analyzeStatus, hfind, hsel]
        simp only [countCorrect, countWrong, hst, s1, s2, appAttempted, List.filter_cons,
          hsel] at hih ⊢
        simp at hih ⊢
        omega
      · by_cases hc : isCorrectAnswer q sel = true
        · have hst : analyzeStatus (r :: rs2) q = AnalyzedStatus.correct := by
            simp [analyzeStatus, hfind, hsel, hc]
          simp only [countCorrect, countWrong, hst, s1, s2, appAttempted, List.filter_cons,
            hsel] at hih ⊢
          simp at hih ⊢
          omega
        · have hst : analyzeStatus (r :: rs2) q = AnalyzedStatus.wrong := by
            simp [analyzeStatus, hfind, hsel, hc]
          simp only [countCorrect, countWrong, hst, s1, s2, appAttempted, List.filter_cons,
            hsel] at hih ⊢
          simp at hih ⊢
          omega

/-- C10: when the response list pairs one response per question with
matching questionIds and the question ids are distinct, the history
summary of App (handleTestFinish) and the Result Report of ResultScreen
compute the same correct count, the same score, the same maxScore and the
same accuracy — even though the App path counts every response with a
non-null selection as its denominator and the report path counts
correct + incorrect over the questions. -/
theorem c10_scoring_equivalence (qs : List Question) (rs : List UserResponse)
    (hm : List.Forall₂ (fun r q => r.questionId = q.id) rs qs)
    (hnd : List.Nodup (qs.map Question.id)) :
    (appTally qs rs).score = (resultTally qs rs).score
    ∧ (appTally qs rs).correct = (resultTally qs rs).correct
    ∧ appMaxScore qs = maxScoreOf qs
    ∧ appAttempted rs = attemptedOf qs rs
    ∧ appAccuracy qs rs = accuracyOf qs rs := by
  obtain ⟨hc, hs⟩ := appTally_eq_resultTally qs rs
  have hatt : appAttempted rs = attemptedOf qs rs := by
    rw [attemptedOf, resultTally_correct_eq, resultTally_incorrect_eq]
    exact (counts_attempted qs rs hm hnd).symm
  refine ⟨hs, hc, rfl, hatt, ?_⟩
  unfold appAccuracy accuracyOf
  rw [hatt, hc]

/-- C10 witness: the equivalence at a concrete two-question session. -/
theorem c10_scoring_equivalence_witness :
    (appTally [sampleQuestion "a" "0" QuestionType.MCQ,
        sampleQuestion "b" "1" QuestionType.NUMERICAL]
        [sampleResponse "a" (some "0") QuestionStatus.ANSWERED,
         sampleResponse "b" none QuestionStatus.NOT_ANSWERED]).score
      = (resultTally [sampleQuestion "a" "0" QuestionType.MCQ,
          sampleQuestion "b" "1" QuestionType.NUMERICAL]
          [sampleResponse "a" (some "0") QuestionStatus.ANSWERED,
           sampleResponse "b" none QuestionStatus.NOT_ANSWERED]).score
    ∧ (appTally [sampleQuestion "a" "0" QuestionType.MCQ,
        sampleQuestion "b" "1" QuestionType.NUMERICAL]
        [sampleResponse "a" (some "0") QuestionStatus.ANSWERED,
         sampleResponse "b" none QuestionStatus.NOT_ANSWERED]).correct
      = (resultTally [sampleQuestion "a" "0" QuestionType.MCQ,
          sampleQuestion "b" "1" QuestionType.NUMERICAL]
          [sampleResponse "a" (some "0") QuestionStatus.ANSWERED,
           sampleResponse "b" none QuestionStatus.NOT_ANSWERED]).correct
    ∧ appMaxScore [sampleQuestion "a" "0" QuestionType.MCQ,
        sampleQuestion "b" "1" QuestionType.NUMERICAL]
      = maxScoreOf [sampleQuestion "a" "0" QuestionType.MCQ,
          sampleQuestion "b" "1" QuestionType.NUMERICAL]
    ∧ appAttempted [sampleResponse "a" (some "0") QuestionStatus.ANSWERED,
        sampleResponse "b" none QuestionStatus.NOT_ANSWERED]
      = attemptedOf [sampleQuestion "a" "0" QuestionType.MCQ,
          sampleQuestion "b" "1" QuestionType.NUMERICAL]
          [sampleResponse "a" (some "0") QuestionStatus.ANSWERED,
           sampleResponse "b" none QuestionStatus.NOT_ANSWERED]
    ∧ appAccuracy [sampleQuestion "a" "0" QuestionType.MCQ,
        sampleQuestion "b" "1" QuestionType.NUMERICAL]
        [sampleResponse "a" (some "0") QuestionStatus.ANSWERED,
         sampleResponse "b" none QuestionStatus.NOT_ANSWERED]
      = accuracyOf [sampleQuestion "a" "0" QuestionType.MCQ,
          sampleQuestion "b" "1" QuestionType.NUMERICAL]
          [sampleResponse "a" (some "0") QuestionStatus.ANSWERED,
           sampleResponse "b" none QuestionStatus.NOT_ANSWERED] :=
  c10_scoring_equivalence
    [sampleQuestion "a" "0" QuestionType.MCQ, sampleQuestion "b" "1" QuestionType.NUMERICAL]
    [sampleResponse "a" (some "0") QuestionStatus.ANSWERED,
     sampleResponse "b" none QuestionStatus.NOT_ANSWERED]
    (List.Forall₂.cons rfl (List.Forall₂.cons rfl List.Forall₂.nil))
    (by decide)
